import Mathlib

/-!
Verification of the saucenao Go client (package saucenao).

Go strings and byte slices are modelled as `List Nat` (one entry per byte,
values < 256 for real data).  Machine integers (`uint32`, `uint64`) are
modelled as `Nat`; the code only formats them in decimal and compares them
with zero, so no wraparound arithmetic occurs.  `io.Reader` inputs are
modelled as an already-determined outcome of reading the stream to
exhaustion: either the full byte contents or an I/O error.
-/

deriving instance DecidableEq for Except

namespace Saucenao

/-- Byte list of an ASCII string literal (used to transcribe the Go string
literals appearing in the source). -/
def bytes (s : String) : List Nat := s.toList.map Char.toNat

/-- Decimal rendering of an unsigned integer, as done by
`strconv.FormatUint(x, 10)`. -/
def natToDec (n : Nat) : List Nat := (Nat.toDigits 10 n).map Char.toNat

/-- Bytes left unescaped by Go's `url.QueryEscape`: ASCII alphanumerics and
the unreserved marks `-`, `_`, `.`, `~` (net/url `shouldEscape` with
`encodeQueryComponent`). -/
def isUnreserved (c : Nat) : Bool :=
  (97 ≤ c && c ≤ 122) || (65 ≤ c && c ≤ 90) || (48 ≤ c && c ≤ 57) ||
    c == 45 || c == 95 || c == 46 || c == 126

/-- Uppercase hexadecimal digit, as in net/url's `"0123456789ABCDEF"`. -/
def hexDigitU (n : Nat) : Nat := if n < 10 then 48 + n else 55 + n

/-- Go's `url.QueryEscape` over the bytes of the string: unreserved bytes
kept, space turned into `+`, every other byte percent-encoded `%XX` with
uppercase hex. -/
def queryEscape : List Nat → List Nat
  | [] => []
  | c :: cs =>
    (if isUnreserved c then [c]
     else if c == 32 then [43]
     else [37, hexDigitU (c / 16), hexDigitU (c % 16)]) ++ queryEscape cs

/-- A Go error value, as far as the saucenao package can produce and a
caller can observe one: `QuotaError{}`, a plain string error (`errors.New`
semantics, produced by `fmt.Errorf` without `%w`), or a wrapping error
(`fmt.Errorf` with `%w`, unwrappable by `errors.As`/`errors.Is`). -/
inductive GoErr where
  | quotaError : GoErr
  | strError (msg : List Nat) : GoErr
  | wrapErr (pre : List Nat) (inner : GoErr) : GoErr
deriving DecidableEq

/-- The `Error()` message of a modelled Go error.  `QuotaError.Error`
returns `"rate limited"` (saucenao.go line 222); `fmt.Errorf` with `%w`
prepends the format prefix to the wrapped error's message. -/
def GoErr.message : GoErr → List Nat
  | .quotaError => bytes "rate limited"
  | .strError m => m
  | .wrapErr pre inner => pre ++ inner.message

/-- Whether `errors.As(err, &QuotaError{})` would succeed: the error is a
`QuotaError` or wraps one. -/
def GoErr.isQuota : GoErr → Bool
  | .quotaError => true
  | .strError _ => false
  | .wrapErr _ inner => inner.isQuota

/-- The read-to-exhaustion outcome of an `io.Reader`: the full contents, or
the I/O error returned partway (in which case `io.Copy` reports it). -/
def StreamOutcome := Except GoErr (List Nat)

/-- Client (saucenao.go lines 36-42): HTTP client handle plus the service
base URL and the API key. -/
structure Client where
  service : List Nat
  apiKey : List Nat

/-- SearchRequest (saucenao.go lines 54-69).  `imageBytes = none` models a
nil `ImageBytes` reader; `some` models a non-nil reader together with the
outcome of reading it.  `DBMask` is a `uint64` bitmask, `NumRes` a
`uint32`; both only ever formatted in decimal. -/
structure SearchRequest where
  url : List Nat := []
  imageBytes : Option (Except GoErr (List Nat)) := none
  testMode : Bool := false
  dbMask : Nat := 0
  dbMaskI : Nat := 0
  numRes : Nat := 0

/-- HTTP method of a built request. -/
inductive Method where
  | get : Method
  | post : Method
deriving DecidableEq

/-- A built `http.Request`, to the extent the package sets it up: method,
full URL string, the optional `Content-Type` header and the optional body
bytes. -/
structure HttpRequest where
  method : Method
  url : List Nat
  contentType : Option (List Nat)
  body : Option (List Nat)
deriving DecidableEq

/-- searchURL (saucenao.go lines 150-173): the exact string-builder
concatenation performed by the Go code. -/
def searchURL (c : Client) (r : SearchRequest) : List Nat :=
  c.service
    ++ bytes "/search.php?output_type=2&api_key="
    ++ c.apiKey
    ++ bytes "&numres="
    ++ natToDec r.numRes
    ++ (if r.testMode then bytes "&testmode=1" else [])
    ++ (if r.dbMask ≠ 0 then bytes "&dbmask=" ++ natToDec r.dbMask else [])
    ++ (if r.dbMaskI ≠ 0 then bytes "&dbmaski=" ++ natToDec r.dbMaskI else [])
    ++ (if r.url ≠ [] then bytes "&url=" ++ queryEscape r.url else [])

/-- CRLF byte pair. -/
def crlf : List Nat := [13, 10]

/-- The header block `mime/multipart.Writer.CreateFormFile("file", "image")`
writes for the single part (header keys emitted in sorted order). -/
def partHeaderBlock : List Nat :=
  bytes "Content-Disposition: form-data; name=\"file\"; filename=\"image\""
    ++ crlf ++ bytes "Content-Type: application/octet-stream"

/-- The multipart body produced by `CreateFormFile` + `io.Copy` + `Close`
for one part with the given boundary: dash-boundary line, part headers,
blank line, content, closing delimiter line. -/
def multipartBody (boundary content : List Nat) : List Nat :=
  bytes "--" ++ boundary ++ crlf
    ++ partHeaderBlock ++ crlf ++ crlf
    ++ content ++ crlf
    ++ bytes "--" ++ boundary ++ bytes "--" ++ crlf

/-- `multipart.Writer.FormDataContentType()` for an (unquoted) boundary. -/
def formDataContentType (boundary : List Nat) : List Nat :=
  bytes "multipart/form-data; boundary=" ++ boundary

/-- requestForSearch (saucenao.go lines 118-147).  The multipart boundary
is chosen randomly by `multipart.NewWriter`; it is passed here as a
parameter.  A nil `ImageBytes` yields a body-less GET; otherwise the reader
is copied into a single form file part and a POST is built, with the read
error returned as-is on failure. -/
def requestForSearch (c : Client) (boundary : List Nat) (r : SearchRequest) :
    Except GoErr HttpRequest :=
  match r.imageBytes with
  | none => .ok ⟨.get, searchURL c r, none, none⟩
  | some (.error e) => .error e
  | some (.ok content) =>
      .ok ⟨.post, searchURL c r, some (formDataContentType boundary),
        some (multipartBody boundary content)⟩

/-! ## JSON values and parsing (model of encoding/json unmarshalling) -/

/-- A parsed JSON value.  Array elements and object members carry the raw
bytes of the member value alongside it, because `json.RawMessage` fields
(`SearchResult.Data`) capture those bytes verbatim. -/
inductive JVal where
  | null : JVal
  | boolean (b : Bool) : JVal
  | num (q : ℚ) : JVal
  | str (s : List Nat) : JVal
  | arr (elems : List (List Nat × JVal)) : JVal
  | obj (fields : List (List Nat × List Nat × JVal)) : JVal

/-- Errors from modelled JSON unmarshalling, mirroring encoding/json's
error classes: syntax errors (unexpected EOF / invalid character) and
unmarshal type errors. -/
inductive JsonErr where
  | unexpectedEnd : JsonErr
  | invalidChar (c : Nat) (ctx : List Nat) : JsonErr
  | typeErr (msg : List Nat) : JsonErr
  | stringTagErr : JsonErr
deriving DecidableEq

/-- Rendering of a byte as a quoted rune, as `%q` does for the printable
ASCII range used in practice. -/
def quoteRune (c : Nat) : List Nat :=
  if 32 ≤ c ∧ c < 127 ∧ c ≠ 39 ∧ c ≠ 92 then [39, c, 39]
  else bytes "'\\x" ++ [hexDigitU (c / 16), hexDigitU (c % 16)] ++ [39]

/-- The `Error()` text of a modelled JSON error, following encoding/json's
messages: `"unexpected end of JSON input"`, `"invalid character 'c' <ctx>"`,
`"json: cannot unmarshal <desc>"`, `"json: invalid use of ,string struct
tag"`. -/
def jsonErrMsg : JsonErr → List Nat
  | .unexpectedEnd => bytes "unexpected end of JSON input"
  | .invalidChar c ctx => bytes "invalid character " ++ quoteRune c ++ [32] ++ ctx
  | .typeErr m => bytes "json: cannot unmarshal " ++ m
  | .stringTagErr => bytes "json: invalid use of ,string struct tag"

def isDigit (c : Nat) : Bool := 48 ≤ c && c ≤ 57

def isWS (c : Nat) : Bool := c == 32 || c == 9 || c == 10 || c == 13

/-- Skip JSON inter-token whitespace. -/
def skipWS : List Nat → List Nat
  | [] => []
  | c :: cs => if isWS c then skipWS cs else c :: cs

def digitsToNat (ds : List Nat) : Nat := ds.foldl (fun a d => a * 10 + (d - 48)) 0

/-- Assemble the rational `±mant / 10^scale * 10^±e` denoted by a parsed
number token. -/
def mkRatNum (neg : Bool) (mant scale : Nat) (epos : Bool) (e : Nat) : ℚ :=
  let sn : Int := if neg then -(mant : Int) else (mant : Int)
  if epos then mkRat (sn * 10 ^ e) (10 ^ scale) else mkRat sn (10 ^ (scale + e))

/-- Parse the exponent part of a JSON number (after the `e`/`E`). -/
def parseExponent (neg : Bool) (mant scale : Nat) (l : List Nat) :
    Except JsonErr (ℚ × List Nat) :=
  let (epos, l5) := match l with
    | 43 :: t => (true, t)
    | 45 :: t => (false, t)
    | t => (true, t)
  match l5 with
  | [] => .error .unexpectedEnd
  | c :: _ =>
    if !isDigit c then .error (.invalidChar c (bytes "in exponent of numeric literal"))
    else
      .ok (mkRatNum neg mant scale epos (digitsToNat (l5.takeWhile isDigit)),
        l5.dropWhile isDigit)

/-- Parse a JSON number token (sign, integer part, optional fraction and
exponent) into an exact rational, returning the unconsumed rest. -/
def parseNumber (l : List Nat) : Except JsonErr (ℚ × List Nat) :=
  let (neg, l1) := match l with
    | 45 :: t => (true, t)
    | _ => (false, l)
  match l1 with
  | [] => .error .unexpectedEnd
  | c :: _ =>
    if !isDigit c then .error (.invalidChar c (bytes "in numeric literal"))
    else
      let (ip, l2) := if c == 48 then ([48], l1.drop 1)
        else (l1.takeWhile isDigit, l1.dropWhile isDigit)
      let (mant, scale, l3) : Nat × Nat × List Nat :=
        match l2 with
        | 46 :: l2a =>
          let fd := l2a.takeWhile isDigit
          (digitsToNat ip * 10 ^ fd.length + digitsToNat fd, fd.length,
            if fd.isEmpty then 46 :: l2a else l2a.dropWhile isDigit)
        | _ => (digitsToNat ip, 0, l2)
      match l3 with
      | 46 :: rest =>
        match skipWS rest with
        | [] => .error .unexpectedEnd
        | c2 :: _ => .error (.invalidChar c2 (bytes "in numeric literal"))
      | 101 :: l4 => parseExponent neg mant scale l4
      | 69 :: l4 => parseExponent neg mant scale l4
      | l4 => .ok (mkRatNum neg mant scale true 0, l4)

/-- UTF-8 encoding of a Unicode code point. -/
def utf8Encode (cp : Nat) : List Nat :=
  if cp < 128 then [cp]
  else if cp < 2048 then [192 + cp / 64, 128 + cp % 64]
  else if cp < 65536 then [224 + cp / 4096, 128 + (cp / 64) % 64, 128 + cp % 64]
  else [240 + cp / 262144, 128 + (cp / 4096) % 64, 128 + (cp / 64) % 64, 128 + cp % 64]

def hexVal (c : Nat) : Option Nat :=
  if 48 ≤ c ∧ c ≤ 57 then some (c - 48)
  else if 97 ≤ c ∧ c ≤ 102 then some (c - 87)
  else if 65 ≤ c ∧ c ≤ 70 then some (c - 55)
  else none

def parseHex4 : List Nat → Option (Nat × List Nat)
  | a :: b :: c :: d :: rest => do
    let va ← hexVal a
    let vb ← hexVal b
    let vc ← hexVal c
    let vd ← hexVal d
    return (va * 4096 + vb * 256 + vc * 16 + vd, rest)
  | _ => none

/-- Single-character string escapes of JSON. -/
def simpleEscape (e : Nat) : Option Nat :=
  if e == 34 then some 34
  else if e == 92 then some 92
  else if e == 47 then some 47
  else if e == 98 then some 8
  else if e == 102 then some 12
  else if e == 110 then some 10
  else if e == 114 then some 13
  else if e == 116 then some 9
  else none

/-- Parse the body of a JSON string (opening quote already consumed),
returning the decoded bytes and the rest after the closing quote.  `\u`
escapes are decoded to UTF-8, with invalid surrogate halves replaced by
U+FFFD as encoding/json does. -/
def parseStringBody : Nat → List Nat → Except JsonErr (List Nat × List Nat)
  | 0, _ => .error .unexpectedEnd
  | _ + 1, [] => .error .unexpectedEnd
  | fuel + 1, c :: cs =>
    if c == 34 then .ok ([], cs)
    else if c == 92 then
      match cs with
      | [] => .error .unexpectedEnd
      | e :: cs2 =>
        if e == 117 then
          match parseHex4 cs2 with
          | none => .error (.invalidChar e (bytes "in string escape code"))
          | some (v, cs3) =>
            if 55296 ≤ v ∧ v < 56320 then
              match cs3 with
              | 92 :: 117 :: cs4 =>
                match parseHex4 cs4 with
                | some (w, cs5) =>
                  if 56320 ≤ w ∧ w < 57344 then
                    (fun p => (utf8Encode (65536 + (v - 55296) * 1024 + (w - 56320)) ++ p.1, p.2))
                      <$> parseStringBody fuel cs5
                  else
                    (fun p => (utf8Encode 65533 ++ p.1, p.2)) <$> parseStringBody fuel cs3
                | none => (fun p => (utf8Encode 65533 ++ p.1, p.2)) <$> parseStringBody fuel cs3
              | _ => (fun p => (utf8Encode 65533 ++ p.1, p.2)) <$> parseStringBody fuel cs3
            else if 56320 ≤ v ∧ v < 57344 then
              (fun p => (utf8Encode 65533 ++ p.1, p.2)) <$> parseStringBody fuel cs3
            else
              (fun p => (utf8Encode v ++ p.1, p.2)) <$> parseStringBody fuel cs3
        else
          match simpleEscape e with
          | some b => (fun p => (b :: p.1, p.2)) <$> parseStringBody fuel cs2
          | none => .error (.invalidChar e (bytes "in string escape code"))
    else if c < 32 then .error (.invalidChar c (bytes "in string literal"))
    else (fun p => (c :: p.1, p.2)) <$> parseStringBody fuel cs

/-- Match the tail of a keyword literal (`null`, `true`, `false`). -/
def expectLit : List Nat → List Nat → JVal → Except JsonErr (JVal × List Nat)
  | [], l, v => .ok (v, l)
  | _ :: _, [], _ => .error .unexpectedEnd
  | e :: es, c :: cs, v =>
    if c == e then expectLit es cs v
    else .error (.invalidChar c (bytes "in literal"))

/-- The raw bytes a parsing step consumed: the input minus the returned
rest. -/
def rawSpan (l rest : List Nat) : List Nat := l.take (l.length - rest.length)

mutual

/-- Parse one JSON value, returning it and the unconsumed rest.  Fuel
decreases on every recursive call; `jsonParse` supplies enough fuel for any
input, so the fuel-exhaustion branch is unreachable from there. -/
def parseValue : Nat → List Nat → Except JsonErr (JVal × List Nat)
  | 0, _ => .error .unexpectedEnd
  | fuel + 1, l =>
    match skipWS l with
    | [] => .error .unexpectedEnd
    | c :: cs =>
      if c == 110 then expectLit (bytes "ull") cs .null
      else if c == 116 then expectLit (bytes "rue") cs (.boolean true)
      else if c == 102 then expectLit (bytes "alse") cs (.boolean false)
      else if c == 34 then
        (fun p => (JVal.str p.1, p.2)) <$> parseStringBody (fuel + 1) cs
      else if c == 45 || isDigit c then
        (fun p => (JVal.num p.1, p.2)) <$> parseNumber (c :: cs)
      else if c == 91 then
        match skipWS cs with
        | 93 :: rest => .ok (.arr [], rest)
        | l2 => (fun p => (JVal.arr p.1, p.2)) <$> parseElems fuel l2
      else if c == 123 then
        match skipWS cs with
        | 125 :: rest => .ok (.obj [], rest)
        | l2 => (fun p => (JVal.obj p.1, p.2)) <$> parseFields fuel l2
      else .error (.invalidChar c (bytes "looking for beginning of value"))

/-- Parse the elements of a non-empty JSON array (opening bracket already
consumed), keeping each element's raw bytes. -/
def parseElems : Nat → List Nat → Except JsonErr (List (List Nat × JVal) × List Nat)
  | 0, _ => .error .unexpectedEnd
  | fuel + 1, l =>
    let l1 := skipWS l
    match parseValue fuel l1 with
    | .error e => .error e
    | .ok (v, rest) =>
      let raw := rawSpan l1 rest
      match skipWS rest with
      | 44 :: rest2 => (fun p => ((raw, v) :: p.1, p.2)) <$> parseElems fuel rest2
      | 93 :: rest2 => .ok ([(raw, v)], rest2)
      | [] => .error .unexpectedEnd
      | c :: _ => .error (.invalidChar c (bytes "after array element"))

/-- Parse the members of a non-empty JSON object (opening brace already
consumed), keeping each member value's raw bytes. -/
def parseFields : Nat → List Nat →
    Except JsonErr (List (List Nat × List Nat × JVal) × List Nat)
  | 0, _ => .error .unexpectedEnd
  | fuel + 1, l =>
    match skipWS l with
    | [] => .error .unexpectedEnd
    | c :: cs =>
      if c == 34 then
        match parseStringBody (fuel + 1) cs with
        | .error e => .error e
        | .ok (key, rest) =>
          match skipWS rest with
          | 58 :: rest2 =>
            let l1 := skipWS rest2
            match parseValue fuel l1 with
            | .error e => .error e
            | .ok (v, rest3) =>
              let raw := rawSpan l1 rest3
              match skipWS rest3 with
              | 44 :: rest4 =>
                (fun p => ((key, raw, v) :: p.1, p.2)) <$> parseFields fuel rest4
              | 125 :: rest4 => .ok ([(key, raw, v)], rest4)
              | [] => .error .unexpectedEnd
              | c2 :: _ => .error (.invalidChar c2 (bytes "after object key:value pair"))
          | [] => .error .unexpectedEnd
          | c2 :: _ => .error (.invalidChar c2 (bytes "after object key"))
      else .error (.invalidChar c (bytes "looking for beginning of object key string"))

end

/-- Parse an entire JSON document: one value, then only trailing
whitespace.  This is the validity check plus value scan of
`json.Unmarshal`. -/
def jsonUnmarshalTop (bs : List Nat) : Except JsonErr JVal :=
  match parseValue (bs.length + 16) bs with
  | .error e => .error e
  | .ok (v, rest) =>
    match skipWS rest with
    | [] => .ok v
    | c :: _ => .error (.invalidChar c (bytes "after top-level value"))

/-! ## Decoding JSON values into the package's structs -/

/-- SearchHeader (saucenao.go lines 182-193).  Go `int` fields are 64-bit
here; `MinimumSimilarity` is a `float64`, modelled as the exact rational
denoted by the decimal in the wire format. -/
structure SearchHeader where
  status : Int := 0
  resultsRequested : Int := 0
  resultsReturned : Int := 0
  shortRemaining : Int := 0
  longRemaining : Int := 0
  shortLimit : Int := 0
  longLimit : Int := 0
  minimumSimilarity : ℚ := 0
deriving DecidableEq

/-- SearchResultHeader (saucenao.go lines 211-216). -/
structure SearchResultHeader where
  indexName : List Nat := []
  indexID : Int := 0
  thumbnail : List Nat := []
  similarity : ℚ := 0
deriving DecidableEq

/-- SearchResult (saucenao.go lines 196-199); `data` is the
`json.RawMessage`, i.e. the raw bytes of the member value. -/
structure SearchResult where
  header : SearchResultHeader := {}
  data : List Nat := []
deriving DecidableEq

/-- SearchResponse (saucenao.go lines 176-179). -/
structure SearchResponse where
  header : SearchHeader := {}
  results : List SearchResult := []
deriving DecidableEq

/-- CommonData and DanbooruData (danbooru.go): the embedded `ext_urls`
plus the Danbooru-specific fields. -/
structure DanbooruData where
  extURLs : List (List Nat) := []
  danbooruID : Int := 0
  source : List Nat := []
  characters : List Nat := []
  material : List Nat := []
  creator : List Nat := []
deriving DecidableEq

/-- ASCII lowercase of a byte, for encoding/json's case-insensitive field
matching. -/
def lowerByte (c : Nat) : Nat := if 65 ≤ c ∧ c ≤ 90 then c + 32 else c

/-- Case-insensitive byte-string equality (ASCII fold), the fallback
encoding/json uses to match JSON keys to struct fields. -/
def eqFold (a b : List Nat) : Bool := a.map lowerByte == b.map lowerByte

/-- A field setter: current struct, raw bytes of the member value, parsed
member value. -/
def Setter (α : Type) := α → List Nat → JVal → Except JsonErr α

/-- encoding/json field resolution: exact tag-name match first, then
case-insensitive match; unknown keys resolve to nothing and are ignored. -/
def findSetter {α : Type} (tbl : List (List Nat × Setter α)) (key : List Nat) :
    Option (Setter α) :=
  match tbl.find? (fun p => p.1 == key) with
  | some p => some p.2
  | none => (tbl.find? (fun p => eqFold p.1 key)).map (fun p => p.2)

/-- Decode the members of a JSON object into a struct: members processed
in input order, unknown keys ignored, first error returned. -/
def decodeFields {α : Type} (tbl : List (List Nat × Setter α)) :
    α → List (List Nat × List Nat × JVal) → Except JsonErr α
  | acc, [] => .ok acc
  | acc, (k, raw, v) :: rest =>
    match findSetter tbl k with
    | none => decodeFields tbl acc rest
    | some set =>
      match set acc raw v with
      | .error e => .error e
      | .ok acc2 => decodeFields tbl acc2 rest

/-- Decode a JSON value into a Go `int` (64-bit): the number must be
integral and in range; null leaves the current value. -/
def decIntField (cur : Int) : JVal → Except JsonErr Int
  | .null => .ok cur
  | .num q =>
    if q.den = 1 ∧ -(2 ^ 63) ≤ q.num ∧ q.num < 2 ^ 63 then .ok q.num
    else .error (.typeErr (bytes "number into Go value of type int"))
  | .str _ => .error (.typeErr (bytes "string into Go value of type int"))
  | .boolean _ => .error (.typeErr (bytes "bool into Go value of type int"))
  | .arr _ => .error (.typeErr (bytes "array into Go value of type int"))
  | .obj _ => .error (.typeErr (bytes "object into Go value of type int"))

/-- Decode a JSON value into a Go `float64` field; null leaves the current
value. -/
def decFloatField (cur : ℚ) : JVal → Except JsonErr ℚ
  | .null => .ok cur
  | .num q => .ok q
  | .str _ => .error (.typeErr (bytes "string into Go value of type float64"))
  | .boolean _ => .error (.typeErr (bytes "bool into Go value of type float64"))
  | .arr _ => .error (.typeErr (bytes "array into Go value of type float64"))
  | .obj _ => .error (.typeErr (bytes "object into Go value of type float64"))

/-- Decode a JSON value into a Go `string` field; null leaves the current
value. -/
def decStrField (cur : List Nat) : JVal → Except JsonErr (List Nat)
  | .null => .ok cur
  | .str s => .ok s
  | .num _ => .error (.typeErr (bytes "number into Go value of type string"))
  | .boolean _ => .error (.typeErr (bytes "bool into Go value of type string"))
  | .arr _ => .error (.typeErr (bytes "array into Go value of type string"))
  | .obj _ => .error (.typeErr (bytes "object into Go value of type string"))

/-- `strconv.ParseInt(s, 10, 64)` on the contents of a `,string`-tagged
field: optional minus sign, then decimal digits, within int64 range. -/
def parseQuotedInt (s : List Nat) : Except JsonErr Int :=
  let (neg, ds) := match s with
    | 45 :: t => (true, t)
    | t => (false, t)
  if ds.isEmpty || !ds.all isDigit then
    .error (.typeErr (bytes "invalid number literal into Go value of type int"))
  else
    let n : Int := digitsToNat ds
    let v := if neg then -n else n
    if -(2 ^ 63) ≤ v ∧ v < 2 ^ 63 then .ok v
    else .error (.typeErr (bytes "number out of range into Go value of type int"))

/-- Decode a `,string`-tagged `int` field: the JSON value must be a string
whose contents parse as a decimal integer. -/
def decQuotedIntField : JVal → Except JsonErr Int
  | .str s => parseQuotedInt s
  | _ => .error .stringTagErr

/-- Decode a `,string`-tagged `float64` field: the JSON value must be a
string whose contents form a number, parsed exactly. -/
def decQuotedFloatField : JVal → Except JsonErr ℚ
  | .str s =>
    match parseNumber s with
    | .ok (q, []) => .ok q
    | _ => .error (.typeErr (bytes "invalid number literal into Go value of type float64"))
  | _ => .error .stringTagErr

/-- Decode the elements of a JSON array into Go strings (null elements
give the zero string). -/
def decStrElems : List (List Nat × JVal) → Except JsonErr (List (List Nat))
  | [] => .ok []
  | (_, v) :: rest =>
    match v with
    | .str s => (fun tail => s :: tail) <$> decStrElems rest
    | .null => (fun tail => [] :: tail) <$> decStrElems rest
    | _ => .error (.typeErr (bytes "value into Go value of type string"))

/-- Decode a JSON value into a `[]string` field: an array whose elements
are strings; null leaves the current value. -/
def decStrListField (cur : List (List Nat)) : JVal → Except JsonErr (List (List Nat))
  | .null => .ok cur
  | .arr es => decStrElems es
  | _ => .error (.typeErr (bytes "value into Go value of type []string"))

/-- Field table of SearchHeader: tag names from the struct tags, with
`short_limit` and `Long_limit` carrying the `,string` option. -/
def searchHeaderSetters : List (List Nat × Setter SearchHeader) :=
  [(bytes "status", fun a _ v => (fun n => {a with status := n}) <$> decIntField a.status v),
   (bytes "results_requested", fun a _ v =>
     (fun n => {a with resultsRequested := n}) <$> decIntField a.resultsRequested v),
   (bytes "results_returned", fun a _ v =>
     (fun n => {a with resultsReturned := n}) <$> decIntField a.resultsReturned v),
   (bytes "short_remaining", fun a _ v =>
     (fun n => {a with shortRemaining := n}) <$> decIntField a.shortRemaining v),
   (bytes "long_remaining", fun a _ v =>
     (fun n => {a with longRemaining := n}) <$> decIntField a.longRemaining v),
   (bytes "short_limit", fun a _ v =>
     (fun n => {a with shortLimit := n}) <$> decQuotedIntField v),
   (bytes "Long_limit", fun a _ v =>
     (fun n => {a with longLimit := n}) <$> decQuotedIntField v),
   (bytes "minimum_similarity", fun a _ v =>
     (fun q => {a with minimumSimilarity := q}) <$> decFloatField a.minimumSimilarity v)]

/-- Field table of SearchResultHeader: `similarity` carries `,string`. -/
def searchResultHeaderSetters : List (List Nat × Setter SearchResultHeader) :=
  [(bytes "index_name", fun a _ v =>
     (fun s => {a with indexName := s}) <$> decStrField a.indexName v),
   (bytes "index_id", fun a _ v =>
     (fun n => {a with indexID := n}) <$> decIntField a.indexID v),
   (bytes "thumbnail", fun a _ v =>
     (fun s => {a with thumbnail := s}) <$> decStrField a.thumbnail v),
   (bytes "similarity", fun a _ v =>
     (fun q => {a with similarity := q}) <$> decQuotedFloatField v)]

/-- Decode a JSON value into a nested SearchResultHeader struct field. -/
def decResultHeaderField (cur : SearchResultHeader) : JVal → Except JsonErr SearchResultHeader
  | .null => .ok cur
  | .obj fs => decodeFields searchResultHeaderSetters cur fs
  | _ => .error (.typeErr (bytes "value into Go value of type saucenao.SearchResultHeader"))

/-- Field table of SearchResult: `data` is a `json.RawMessage`, capturing
the member value's raw bytes verbatim. -/
def searchResultSetters : List (List Nat × Setter SearchResult) :=
  [(bytes "header", fun a _ v =>
     (fun h => {a with header := h}) <$> decResultHeaderField a.header v),
   (bytes "data", fun a raw _ => .ok {a with data := raw})]

/-- Decode one element of the `results` array into a SearchResult. -/
def decSearchResultElem : JVal → Except JsonErr SearchResult
  | .null => .ok {}
  | .obj fs => decodeFields searchResultSetters {} fs
  | _ => .error (.typeErr (bytes "value into Go value of type saucenao.SearchResult"))

/-- Decode a JSON value into a nested SearchHeader struct field. -/
def decHeaderField (cur : SearchHeader) : JVal → Except JsonErr SearchHeader
  | .null => .ok cur
  | .obj fs => decodeFields searchHeaderSetters cur fs
  | _ => .error (.typeErr (bytes "value into Go value of type saucenao.SearchHeader"))

/-- Decode the elements of the `results` array. -/
def decResultElems : List (List Nat × JVal) → Except JsonErr (List SearchResult)
  | [] => .ok []
  | (_, v) :: rest =>
    match decSearchResultElem v with
    | .error e => .error e
    | .ok r => (fun tail => r :: tail) <$> decResultElems rest

/-- Field table of SearchResponse. -/
def searchResponseSetters : List (List Nat × Setter SearchResponse) :=
  [(bytes "header", fun a _ v =>
     (fun h => {a with header := h}) <$> decHeaderField a.header v),
   (bytes "results", fun a _ v =>
     match v with
     | .null => .ok a
     | .arr es => (fun rs => {a with results := rs}) <$> decResultElems es
     | _ => .error (.typeErr (bytes "value into Go value of type []saucenao.SearchResult")))]

/-- Decode a top-level JSON value into a SearchResponse (null leaves the
zero struct, as `json.Unmarshal` does). -/
def decodeSearchResponseVal : JVal → Except JsonErr SearchResponse
  | .null => .ok {}
  | .obj fs => decodeFields searchResponseSetters {} fs
  | _ => .error (.typeErr (bytes "value into Go value of type saucenao.SearchResponse"))

/-- `json.Unmarshal(d, &sr)` for a SearchResponse. -/
def unmarshalSearchResponse (bs : List Nat) : Except JsonErr SearchResponse :=
  match jsonUnmarshalTop bs with
  | .error e => .error e
  | .ok v => decodeSearchResponseVal v

/-- Setter of the promoted `ext_urls` field of the embedded CommonData. -/
def setExtURLs : Setter DanbooruData := fun a _ v =>
  (fun us => {a with extURLs := us}) <$> decStrListField a.extURLs v

/-- Setter of `danbooru_id`. -/
def setDanbooruID : Setter DanbooruData := fun a _ v =>
  (fun n => {a with danbooruID := n}) <$> decIntField a.danbooruID v

/-- Setter of `source`. -/
def setSource : Setter DanbooruData := fun a _ v =>
  (fun s => {a with source := s}) <$> decStrField a.source v

/-- Setter of `characters`. -/
def setCharacters : Setter DanbooruData := fun a _ v =>
  (fun s => {a with characters := s}) <$> decStrField a.characters v

/-- Setter of `material`. -/
def setMaterial : Setter DanbooruData := fun a _ v =>
  (fun s => {a with material := s}) <$> decStrField a.material v

/-- Setter of `creator`. -/
def setCreator : Setter DanbooruData := fun a _ v =>
  (fun s => {a with creator := s}) <$> decStrField a.creator v

/-- Field table of DanbooruData, including the promoted `ext_urls` of the
embedded CommonData. -/
def danbooruSetters : List (List Nat × Setter DanbooruData) :=
  [(bytes "ext_urls", setExtURLs),
   (bytes "danbooru_id", setDanbooruID),
   (bytes "source", setSource),
   (bytes "characters", setCharacters),
   (bytes "material", setMaterial),
   (bytes "creator", setCreator)]

/-- Decode a top-level JSON value into a DanbooruData. -/
def decodeDanbooruVal : JVal → Except JsonErr DanbooruData
  | .null => .ok {}
  | .obj fs => decodeFields danbooruSetters {} fs
  | _ => .error (.typeErr (bytes "value into Go value of type saucenao.DanbooruData"))

/-- `json.Unmarshal` of a result's raw payload as DanbooruData. -/
def unmarshalDanbooru (bs : List Nat) : Except JsonErr DanbooruData :=
  match jsonUnmarshalTop bs with
  | .error e => .error e
  | .ok v => decodeDanbooruVal v

/-- AsDanbooru (saucenao.go lines 202-208): decode the raw `Data` payload,
wrapping any JSON error with `fmt.Errorf("search result as danbooru: %w",
err)`. -/
def asDanbooru (data : List Nat) : Except GoErr DanbooruData :=
  match unmarshalDanbooru data with
  | .error je => .error (.wrapErr (bytes "search result as danbooru: ") (.strError (jsonErrMsg je)))
  | .ok d => .ok d

/-! ## The Search operation -/

/-- An HTTP response as the package consumes it: status code, status text
(`resp.Status`, e.g. `"429 Too Many Requests"`), and the outcome of
reading the body to exhaustion. -/
structure HttpResponse where
  status : Nat
  statusText : List Nat
  body : Except (List Nat) (List Nat)

/-- The transport (`http.Client.Do` round trip): either a response or the
inner error that `Do` wraps in a `*url.Error`. -/
def Transport := HttpRequest → Except (List Nat) HttpResponse

/-- The HTTP verb as it appears in a `*url.Error` from `http.Client.Do`. -/
def methodName : Method → List Nat
  | .get => bytes "Get"
  | .post => bytes "Post"

/-- `url.Error.Error()`: `<Op> "<URL>": <inner>`. -/
def urlErrorMsg (m : Method) (u inner : List Nat) : List Nat :=
  methodName m ++ bytes " \"" ++ u ++ bytes "\": " ++ inner

/-- Search (saucenao.go lines 90-116).  Returns the result together with
the list of requests submitted to the transport (empty when request
construction fails, a single request otherwise).  The status switch
decodes only on 200, returns a wrapped QuotaError on 429, and a generic
error carrying `resp.Status` otherwise; transport, body-read and JSON
errors are flattened to string errors by `fmt.Errorf`'s `%s` verb. -/
def search (c : Client) (boundary : List Nat) (transport : Transport)
    (r : SearchRequest) : Except GoErr SearchResponse × List HttpRequest :=
  match requestForSearch c boundary r with
  | .error e => (.error (.wrapErr (bytes "saucenao search: ") e), [])
  | .ok req =>
    match transport req with
    | .error inner =>
      (.error (.strError (bytes "saucenao search: " ++ urlErrorMsg req.method req.url inner)),
        [req])
    | .ok resp =>
      if resp.status = 200 then
        match resp.body with
        | .error m => (.error (.strError (bytes "saucenao search: " ++ m)), [req])
        | .ok d =>
          match unmarshalSearchResponse d with
          | .error je =>
            (.error (.strError (bytes "saucenao search: " ++ jsonErrMsg je)), [req])
          | .ok sr => (.ok sr, [req])
      else if resp.status = 429 then
        (.error (.wrapErr (bytes "saucenao search: ") .quotaError), [req])
      else
        (.error (.strError (bytes "saucenao search: unexpected status " ++ resp.statusText)),
          [req])

/-! ## Decoding a multipart body (model of mime/multipart.Reader, as the
package's own test `checkRequestFile` uses it) -/

/-- Split a byte list at the first occurrence of `pat`: returns the bytes
before the occurrence and the bytes after it. -/
def splitOnPat (pat : List Nat) : List Nat → Option (List Nat × List Nat)
  | [] => none
  | x :: xs =>
    if pat.isPrefixOf (x :: xs) then some ([], (x :: xs).drop pat.length)
    else
      match splitOnPat pat xs with
      | some (a, b) => some (x :: a, b)
      | none => none

/-- Drop a required leading pattern. -/
def stripPfx (p l : List Nat) : Option (List Nat) :=
  if p.isPrefixOf l then some (l.drop p.length) else none

/-- Extract the quoted value following a marker such as `name="` inside a
header block. -/
def extractQuoted (marker hdr : List Nat) : Option (List Nat) :=
  match splitOnPat marker hdr with
  | none => none
  | some (_, rest) =>
    match splitOnPat [34] rest with
    | none => none
    | some (v, _) => some v

/-- Read the form-data name and filename out of a part header block. -/
def parsePartHeaders (hdr : List Nat) : Option (List Nat × List Nat) :=
  match extractQuoted (bytes "name=\"") hdr, extractQuoted (bytes "filename=\"") hdr with
  | some n, some f => some (n, f)
  | _, _ => none

/-- Decode a single-part multipart body with the given boundary: the
dash-boundary line, the part headers up to the blank line, the content up
to the `CRLF --boundary` delimiter, which must be the closing `--` CRLF
delimiter.  Returns (name, filename, content). -/
def multipartReadPart (boundary body : List Nat) :
    Option (List Nat × List Nat × List Nat) :=
  match stripPfx (bytes "--" ++ boundary ++ crlf) body with
  | none => none
  | some r1 =>
    match splitOnPat (crlf ++ crlf) r1 with
    | none => none
    | some (hdr, r2) =>
      match parsePartHeaders hdr with
      | none => none
      | some (n, f) =>
        match splitOnPat (crlf ++ bytes "--" ++ boundary) r2 with
        | none => none
        | some (content, r3) =>
          if r3 = bytes "--" ++ crlf then some (n, f, content) else none

/-- `cleanFor pat a` holds when no occurrence of `pat` can start inside
`a`, whatever bytes follow `a`: every start position in `a` already shows
a mismatch with `pat` inside `a` itself. -/
def cleanFor (pat a : List Nat) : Bool :=
  (List.range a.length).all
    (fun i => (pat.zip (a.drop i)).any (fun pc => pc.1 != pc.2))

theorem not_isPrefixOf_of_zip_mismatch (pat s : List Nat)
    (h : (pat.zip s).any (fun pc => pc.1 != pc.2) = true) (r : List Nat) :
    pat.isPrefixOf (s ++ r) = false := by
  induction pat generalizing s r with
  | nil => simp [List.zip] at h
  | cons p ps ih =>
    cases s with
    | nil => simp [List.zip] at h
    | cons c cs =>
      simp only [List.zip_cons_cons, List.any_cons, Bool.or_eq_true, bne_iff_ne, ne_eq] at h
      simp only [List.cons_append, List.isPrefixOf_cons₂]
      rcases h with h | h
      · simp [beq_eq_false_iff_ne.mpr h]
      · rcases Decidable.em (p = c) with rfl | hpc
        · simp [ih cs h r]
        · simp [beq_eq_false_iff_ne.mpr hpc]

theorem cleanFor_tail {pat : List Nat} {x : Nat} {xs : List Nat}
    (h : cleanFor pat (x :: xs) = true) : cleanFor pat xs = true := by
  simp only [cleanFor, List.all_eq_true, List.mem_range] at h ⊢
  intro i hi
  have := h (i + 1) (by simp [Nat.succ_lt_succ hi])
  simpa using this

theorem cleanFor_head {pat : List Nat} {x : Nat} {xs : List Nat}
    (h : cleanFor pat (x :: xs) = true) :
    (pat.zip (x :: xs)).any (fun pc => pc.1 != pc.2) = true := by
  simp only [cleanFor, List.all_eq_true, List.mem_range] at h
  simpa using h 0 (by simp)


theorem splitOnPat_append (pat a rest : List Nat) (h : cleanFor pat a = true) :
    splitOnPat pat (a ++ rest) =
      (splitOnPat pat rest).map (fun pr => (a ++ pr.1, pr.2)) := by
  induction a with
  | nil =>
    simp only [List.nil_append]
    cases hs : splitOnPat pat rest with
    | none => simp
    | some pr => simp
  | cons x xs ih =>
    have hx := cleanFor_head h
    have hpf := not_isPrefixOf_of_zip_mismatch pat (x :: xs) hx rest
    simp only [List.cons_append] at hpf ⊢
    rw [splitOnPat]
    simp only [hpf, Bool.false_eq_true, if_false]
    rw [ih (cleanFor_tail h)]
    cases hs : splitOnPat pat rest with
    | none => simp
    | some pr => simp

theorem splitOnPat_self (pat rest : List Nat) (hne : pat ≠ []) :
    splitOnPat pat (pat ++ rest) = some ([], rest) := by
  cases pat with
  | nil => exact absurd rfl hne
  | cons p ps =>
    rw [List.cons_append, splitOnPat]
    have hpf : (p :: ps).isPrefixOf (p :: (ps ++ rest)) = true := by
      have h2 : (p :: ps) <+: (p :: ps) ++ rest := List.prefix_append _ _
      simp [List.isPrefixOf_iff_prefix, h2]
    simp only [List.cons_append] at hpf
    simp [hpf, List.drop_left]

theorem stripPfx_append (p rest : List Nat) : stripPfx p (p ++ rest) = some rest := by
  have hpf : p.isPrefixOf (p ++ rest) = true := by
    simp [List.isPrefixOf_iff_prefix, List.prefix_append p rest]
  simp [stripPfx, hpf, List.drop_left]

theorem multipartReadPart_roundTrip (boundary content : List Nat)
    (h : cleanFor (crlf ++ bytes "--" ++ boundary) content = true) :
    multipartReadPart boundary (multipartBody boundary content) =
      some (bytes "file", bytes "image", content) := by
  have h1 : multipartBody boundary content =
      (bytes "--" ++ boundary ++ crlf) ++
        (partHeaderBlock ++ ((crlf ++ crlf) ++
          (content ++ ((crlf ++ bytes "--" ++ boundary) ++ (bytes "--" ++ crlf))))) := by
    simp [multipartBody, List.append_assoc]
  have hclean : cleanFor (crlf ++ crlf) partHeaderBlock = true := by decide
  have hhdrs : parsePartHeaders partHeaderBlock = some (bytes "file", bytes "image") := by
    decide
  rw [multipartReadPart, h1, stripPfx_append]
  dsimp only
  rw [splitOnPat_append _ _ _ hclean, splitOnPat_self _ _ (by simp [crlf]),
    Option.map_some']
  dsimp only
  simp only [List.append_nil]
  rw [hhdrs]
  dsimp only
  rw [splitOnPat_append _ _ _ h, splitOnPat_self _ _ (by simp [crlf]),
    Option.map_some']
  dsimp only
  simp

/-! ## Spec-side description of the query string (for the refinement
claims) -/

/-- The query parameter list exactly as the spec words it: `output_type=2`,
`api_key={apiKey}`, `numres={numResults}`, then conditionally `testmode=1`
(only if testMode), `dbmask={dbMask}` (only if nonzero),
`dbmaski={dbMaskExclude}` (only if nonzero), `url={percent-encoded URL}`
(only if non-empty), in that order. -/
def specQueryParams (c : Client) (r : SearchRequest) : List (List Nat) :=
  [bytes "output_type=2", bytes "api_key=" ++ c.apiKey,
    bytes "numres=" ++ natToDec r.numRes]
    ++ (if r.testMode then [bytes "testmode=1"] else [])
    ++ (if r.dbMask ≠ 0 then [bytes "dbmask=" ++ natToDec r.dbMask] else [])
    ++ (if r.dbMaskI ≠ 0 then [bytes "dbmaski=" ++ natToDec r.dbMaskI] else [])
    ++ (if r.url ≠ [] then [bytes "url=" ++ queryEscape r.url] else [])

theorem intercalate_single (sep a : List Nat) : List.intercalate sep [a] = a := by
  simp [List.intercalate]

theorem intercalate_cons₂ (sep a b : List Nat) (t : List (List Nat)) :
    List.intercalate sep (a :: b :: t) = a ++ sep ++ List.intercalate sep (b :: t) := by
  simp [List.intercalate, List.intersperse, List.append_assoc]

theorem bytes_searchPfx :
    bytes "/search.php?output_type=2&api_key=" =
      bytes "/search.php?" ++ bytes "output_type=2" ++ [38] ++ bytes "api_key=" := by
  decide

theorem bytes_amp_numres : bytes "&numres=" = [38] ++ bytes "numres=" := by decide

theorem bytes_amp_testmode : bytes "&testmode=1" = [38] ++ bytes "testmode=1" := by decide

theorem bytes_amp_dbmask : bytes "&dbmask=" = [38] ++ bytes "dbmask=" := by decide

theorem bytes_amp_dbmaski : bytes "&dbmaski=" = [38] ++ bytes "dbmaski=" := by decide

theorem bytes_amp_url : bytes "&url=" = [38] ++ bytes "url=" := by decide

/-- The Go string-builder concatenation of `searchURL` renders exactly the
spec's parameter list joined with `&` after `{service}/search.php?`. -/
theorem searchURL_eq_spec (c : Client) (r : SearchRequest) :
    searchURL c r =
      c.service ++ bytes "/search.php?" ++ List.intercalate [38] (specQueryParams c r) := by
  by_cases htm : r.testMode = true <;>
    by_cases hdm : r.dbMask = 0 <;>
      by_cases hdmi : r.dbMaskI = 0 <;>
        by_cases hurl : r.url = [] <;>
          simp [searchURL, specQueryParams, htm, hdm, hdmi, hurl, bytes_searchPfx,
            bytes_amp_numres, bytes_amp_testmode, bytes_amp_dbmask, bytes_amp_dbmaski,
            bytes_amp_url, intercalate_cons₂, intercalate_single, List.append_assoc]

/-! ## Sample response fixture -/

/-- Modelled from the spec: the repository's `testdata/response.json`
fixture file is not among the available sources (only the tests that read
it are).  This byte string is a JSON document reproducing exactly the
decoded values the spec and the package's tests state for that fixture:
header status 0, results requested/returned 16, short remaining 5, long
remaining 199, `short_limit` the numeric string `"6"`, `Long_limit` the
numeric string `"200"`, `minimum_similarity` 24.6, and a single Danbooru
result (index id 9) with similarity string `"18.71"` and the known
Danbooru payload. -/
def sampleResponseJSON : List Nat :=
  bytes "\x7b\"header\":\x7b\"status\":0,\"results_requested\":16,\"results_returned\":16,\"short_remaining\":5,\"long_remaining\":199,\"short_limit\":\"6\",\"Long_limit\":\"200\",\"minimum_similarity\":24.6\x7d,\"results\":[\x7b\"header\":\x7b\"index_name\":\"Index #9: Danbooru - cf735b2a59302bf96aac3960c4e075a1_0.jpg\",\"index_id\":9,\"thumbnail\":\"https://img3.saucenao.com/booru/c/f/cf735b2a59302bf96aac3960c4e075a1_0.jpg\",\"similarity\":\"18.71\"\x7d,\"data\":\x7b\"danbooru_id\":736634,\"ext_urls\":[\"https://danbooru.donmai.us/post/show/736634\"]\x7d\x7d]\x7d"

/-- The decoded form of `sampleResponseJSON` that the package's test
expects (`mkRat 246 10` is 24.6, `mkRat 1871 100` is 18.71). -/
def sampleResponse : SearchResponse :=
  { header :=
      { status := 0, resultsRequested := 16, resultsReturned := 16,
        shortRemaining := 5, longRemaining := 199, shortLimit := 6,
        longLimit := 200, minimumSimilarity := mkRat 246 10 },
    results :=
      [{ header :=
           { indexName := bytes "Index #9: Danbooru - cf735b2a59302bf96aac3960c4e075a1_0.jpg",
             indexID := 9,
             thumbnail := bytes "https://img3.saucenao.com/booru/c/f/cf735b2a59302bf96aac3960c4e075a1_0.jpg",
             similarity := mkRat 1871 100 },
         data := bytes "\x7b\"danbooru_id\":736634,\"ext_urls\":[\"https://danbooru.donmai.us/post/show/736634\"]\x7d" }] }

/-- C6: decoding a well-formed response body parses `similarity`,
`short_limit` and `Long_limit` from JSON numeric strings while other
numeric fields are native JSON numbers: the sample fixture decodes with
`short_limit="6"` giving ShortLimit 6, `minimum_similarity` giving 24.6
and the first result's `similarity` string giving 18.71; a bare number in
the `,string`-tagged `short_limit` or `similarity` field is rejected, and
a numeric string in the native `results_returned` field is rejected. -/
theorem c6_string_tagged_numeric_fields :
    unmarshalSearchResponse sampleResponseJSON = .ok sampleResponse
    ∧ sampleResponse.header.shortLimit = 6
    ∧ sampleResponse.header.longLimit = 200
    ∧ sampleResponse.header.minimumSimilarity = mkRat 246 10
    ∧ (sampleResponse.results.map (fun r => r.header.similarity)) = [mkRat 1871 100]
    ∧ unmarshalSearchResponse
        (bytes "\x7b\"header\":\x7b\"short_limit\":6\x7d\x7d") = .error .stringTagErr
    ∧ unmarshalSearchResponse
        (bytes "\x7b\"results\":[\x7b\"header\":\x7b\"similarity\":18.71\x7d\x7d]\x7d") =
        .error .stringTagErr
    ∧ unmarshalSearchResponse
        (bytes "\x7b\"header\":\x7b\"results_returned\":\"16\"\x7d\x7d") =
        .error (.typeErr (bytes "string into Go value of type int")) := by
  set_option maxRecDepth 16000 in decide

/-! ## Claims about request construction -/

/-- C1: for every SearchRequest with imageBytes unset, the rendered
request is a body-less GET to `{service}/search.php` whose query string is
exactly the spec's parameter list — `output_type=2`, `api_key={apiKey}`,
`numres={numResults}`, then conditionally `testmode=1`, `dbmask`,
`dbmaski`, `url={percent-encoded URL}` — joined with `&` in exactly that
order; in particular with numResults 16 and no options the rendered URL is
`{service}/search.php?output_type=2&api_key={key}&numres=16`. -/
theorem c1_get_request_rendering (c : Client) (boundary : List Nat) (r : SearchRequest)
    (h : r.imageBytes = none) :
    requestForSearch c boundary r =
      .ok ⟨.get,
        c.service ++ bytes "/search.php?" ++ List.intercalate [38] (specQueryParams c r),
        none, none⟩
    ∧ (r.testMode = false → r.dbMask = 0 → r.dbMaskI = 0 → r.url = [] → r.numRes = 16 →
        requestForSearch c boundary r =
          .ok ⟨.get,
            c.service ++ bytes "/search.php?output_type=2&api_key=" ++ c.apiKey
              ++ bytes "&numres=16",
            none, none⟩) := by
  constructor
  · simp [requestForSearch, h, searchURL_eq_spec]
  · intro htm hdm hdmi hurl hnum
    simp [requestForSearch, h, searchURL, htm, hdm, hdmi, hurl, hnum,
      show bytes "&numres=16" = bytes "&numres=" ++ natToDec 16 from by decide,
      List.append_assoc]

/-- Witness for C1 at a concrete client and request. -/
theorem c1_get_request_rendering_witness :
    ({ numRes := 16 } : SearchRequest).imageBytes = none
    ∧ requestForSearch ⟨bytes "https://saucenao.com", bytes "KEY"⟩ (bytes "B")
        { numRes := 16 } =
        .ok ⟨.get,
          bytes "https://saucenao.com/search.php?output_type=2&api_key=KEY&numres=16",
          none, none⟩ :=
  ⟨rfl,
    ((c1_get_request_rendering ⟨bytes "https://saucenao.com", bytes "KEY"⟩ (bytes "B")
        { numRes := 16 } rfl).2 rfl rfl rfl rfl rfl).trans (by decide)⟩

/-- C8: a SearchRequest with neither the image URL nor imageBytes set is
not rejected: the builder still returns a GET request, whose query simply
omits the url parameter. -/
theorem c8_neither_input_permissive (c : Client) (boundary : List Nat) (r : SearchRequest)
    (h1 : r.imageBytes = none) (h2 : r.url = []) :
    requestForSearch c boundary r = .ok ⟨.get, searchURL c r, none, none⟩
    ∧ searchURL c r =
        c.service ++ bytes "/search.php?output_type=2&api_key=" ++ c.apiKey
          ++ bytes "&numres=" ++ natToDec r.numRes
          ++ (if r.testMode then bytes "&testmode=1" else [])
          ++ (if r.dbMask ≠ 0 then bytes "&dbmask=" ++ natToDec r.dbMask else [])
          ++ (if r.dbMaskI ≠ 0 then bytes "&dbmaski=" ++ natToDec r.dbMaskI else []) := by
  constructor
  · simp [requestForSearch, h1]
  · simp [searchURL, h2]

/-- Witness for C8 at a concrete client and request. -/
theorem c8_neither_input_permissive_witness :
    ({ numRes := 16 } : SearchRequest).imageBytes = none
    ∧ ({ numRes := 16 } : SearchRequest).url = []
    ∧ requestForSearch ⟨bytes "S", bytes "K"⟩ (bytes "B") { numRes := 16 } =
        .ok ⟨.get, bytes "S/search.php?output_type=2&api_key=K&numres=16", none, none⟩ :=
  ⟨rfl, rfl,
    ((c8_neither_input_permissive ⟨bytes "S", bytes "K"⟩ (bytes "B")
        { numRes := 16 } rfl rfl).1).trans (by decide)⟩

/-- C9: when reading the imageBytes stream fails, Search returns the read
error wrapped as a construction failure and never invokes the transport
(the submitted-request log is empty). -/
theorem c9_read_failure_no_submission (c : Client) (boundary : List Nat)
    (transport : Transport) (r : SearchRequest) (e : GoErr)
    (h : r.imageBytes = some (.error e)) :
    search c boundary transport r =
      (.error (.wrapErr (bytes "saucenao search: ") e), []) := by
  simp [search, requestForSearch, h]

/-- Witness for C9 at a concrete request and stream error. -/
theorem c9_read_failure_no_submission_witness :
    ({ imageBytes := some (.error (.strError (bytes "broken pipe"))) } :
        SearchRequest).imageBytes = some (.error (.strError (bytes "broken pipe")))
    ∧ search ⟨bytes "S", bytes "K"⟩ (bytes "B") (fun _ => .error (bytes "unused"))
        { imageBytes := some (.error (.strError (bytes "broken pipe"))) } =
        (.error (.wrapErr (bytes "saucenao search: ") (.strError (bytes "broken pipe"))), []) :=
  ⟨rfl,
    c9_read_failure_no_submission ⟨bytes "S", bytes "K"⟩ (bytes "B")
      (fun _ => .error (bytes "unused"))
      { imageBytes := some (.error (.strError (bytes "broken pipe"))) }
      (.strError (bytes "broken pipe")) rfl⟩

/-- The part of the rendered URL that follows the verbatim API key; it
does not mention the key or the service. -/
def querySuffix (r : SearchRequest) : List Nat :=
  bytes "&numres=" ++ natToDec r.numRes
    ++ (if r.testMode then bytes "&testmode=1" else [])
    ++ (if r.dbMask ≠ 0 then bytes "&dbmask=" ++ natToDec r.dbMask else [])
    ++ (if r.dbMaskI ≠ 0 then bytes "&dbmaski=" ++ natToDec r.dbMaskI else [])
    ++ (if r.url ≠ [] then bytes "&url=" ++ queryEscape r.url else [])

theorem queryEscape_no_metachars (s : List Nat) :
    ∀ b ∈ queryEscape s, b ≠ 38 ∧ b ≠ 61 := by
  induction s with
  | nil => simp [queryEscape]
  | cons c cs ih =>
    intro b hb
    rw [queryEscape] at hb
    rcases List.mem_append.mp hb with hb | hb
    · by_cases hu : isUnreserved c
      · simp [hu] at hb
        subst hb
        constructor <;> rintro rfl <;> simp [isUnreserved] at hu
      · by_cases hsp : c == 32
        · simp [hu, hsp] at hb
          omega
        · simp [hu, hsp, hexDigitU] at hb
          rcases hb with rfl | rfl | rfl
          · omega
          · split <;> omega
          · split <;> omega
    · exact ih b hb

/-- C10 (implicit): the rendered query string percent-encodes only the
image URL value; the API key is concatenated verbatim right after
`api_key=` (so any `&` or `=` bytes in it appear unescaped in the URL),
while the escaped URL value can contain neither `&` (38) nor `=` (61). -/
theorem c10_api_key_verbatim (c : Client) (r : SearchRequest) :
    searchURL c r =
      c.service ++ bytes "/search.php?output_type=2&api_key=" ++ c.apiKey ++ querySuffix r
    ∧ (∀ b ∈ c.apiKey, b ∈ searchURL c r)
    ∧ (∀ b ∈ queryEscape r.url, b ≠ 38 ∧ b ≠ 61) := by
  refine ⟨by simp [searchURL, querySuffix, List.append_assoc], ?_, queryEscape_no_metachars r.url⟩
  intro b hb
  simp [searchURL, hb]

/-- Witness for C10: an API key containing `&` and `=` shows up verbatim. -/
theorem c10_api_key_verbatim_witness :
    searchURL ⟨bytes "S", bytes "k&ey=1"⟩ { numRes := 2 } =
      bytes "S" ++ bytes "/search.php?output_type=2&api_key=" ++ bytes "k&ey=1"
        ++ querySuffix { numRes := 2 }
    ∧ 38 ∈ searchURL ⟨bytes "S", bytes "k&ey=1"⟩ { numRes := 2 } :=
  ⟨(c10_api_key_verbatim ⟨bytes "S", bytes "k&ey=1"⟩ { numRes := 2 }).1,
    (c10_api_key_verbatim ⟨bytes "S", bytes "k&ey=1"⟩ { numRes := 2 }).2.1 38 (by decide)⟩

/-- C2: for every SearchRequest with imageBytes set (and reading
succeeding), the rendered request is a POST whose multipart body holds
exactly one part, named `file` with filename `image`, and decoding that
part recovers byte-for-byte the full stream contents.  The hypothesis `hb`
is the multipart side condition that the (randomly chosen, 60-hex-digit in
Go) boundary delimiter does not occur in the content. -/
theorem c2_post_multipart_roundtrip (c : Client) (boundary : List Nat) (r : SearchRequest)
    (content : List Nat) (h : r.imageBytes = some (.ok content))
    (hb : cleanFor (crlf ++ bytes "--" ++ boundary) content = true) :
    requestForSearch c boundary r =
      .ok ⟨.post, searchURL c r, some (formDataContentType boundary),
        some (multipartBody boundary content)⟩
    ∧ multipartReadPart boundary (multipartBody boundary content) =
        some (bytes "file", bytes "image", content) :=
  ⟨by simp [requestForSearch, h], multipartReadPart_roundTrip boundary content hb⟩

/-- Witness for C2: the test's image bytes `eyjafjalla` round-trip through
the multipart body. -/
theorem c2_post_multipart_roundtrip_witness :
    cleanFor (crlf ++ bytes "--" ++ bytes "bd93c4") (bytes "eyjafjalla") = true
    ∧ multipartReadPart (bytes "bd93c4")
        (multipartBody (bytes "bd93c4") (bytes "eyjafjalla")) =
        some (bytes "file", bytes "image", bytes "eyjafjalla") :=
  ⟨by decide,
    (c2_post_multipart_roundtrip ⟨bytes "S", bytes "K"⟩ (bytes "bd93c4")
      { imageBytes := some (.ok (bytes "eyjafjalla")) } (bytes "eyjafjalla") rfl
      (by decide)).2⟩

/-- C4 counterexample: the claim says the POST query never contains a url
parameter even when the URL field is non-empty; but with both ImageBytes
and URL set, `requestForSearch` builds the POST URL with the same
`searchURL`, which appends `&url=...` — here the rendered POST URL
literally contains `&url=http%3A%2F%2Fx`. -/
theorem c4_post_url_param_counterexample :
    requestForSearch ⟨bytes "https://example.com", bytes "k"⟩ (bytes "b")
        { url := bytes "http://x", imageBytes := some (.ok (bytes "img")) } =
      .ok ⟨.post,
        bytes "https://example.com/search.php?output_type=2&api_key=k&numres=0&url=http%3A%2F%2Fx",
        some (formDataContentType (bytes "b")),
        some (multipartBody (bytes "b") (bytes "img"))⟩
    ∧ (bytes "&url=") <:+:
        bytes "https://example.com/search.php?output_type=2&api_key=k&numres=0&url=http%3A%2F%2Fx" := by
  constructor
  · decide
  · decide

/-- C4 (amended): the POST targets the same path and query as the GET
variant — the query construction is literally the same `searchURL`,
including the url-parameter logic, so the POST query carries the url
parameter exactly when the URL field is non-empty (and omits it when the
URL field is empty). -/
theorem c4_post_same_query_as_get (c : Client) (boundary : List Nat) (r : SearchRequest)
    (content : List Nat) (h : r.imageBytes = some (.ok content)) :
    requestForSearch c boundary r =
      .ok ⟨.post, searchURL c r, some (formDataContentType boundary),
        some (multipartBody boundary content)⟩
    ∧ searchURL c { r with imageBytes := none } = searchURL c r
    ∧ (r.url = [] → searchURL c r = searchURL c { r with url := [] })
    ∧ (r.url ≠ [] →
        searchURL c r =
          searchURL c { r with url := [] } ++ bytes "&url=" ++ queryEscape r.url) := by
  refine ⟨by simp [requestForSearch, h], rfl, ?_, ?_⟩
  · intro hurl
    simp [searchURL, hurl]
  · intro hurl
    simp [searchURL, hurl, List.append_assoc]

/-- Witness for C4 (amended) at a concrete request with both inputs set. -/
theorem c4_post_same_query_as_get_witness :
    ({ url := bytes "http://x", imageBytes := some (.ok (bytes "img")) } :
        SearchRequest).imageBytes = some (.ok (bytes "img"))
    ∧ requestForSearch ⟨bytes "https://example.com", bytes "k"⟩ (bytes "b")
        { url := bytes "http://x", imageBytes := some (.ok (bytes "img")) } =
        .ok ⟨.post,
          searchURL ⟨bytes "https://example.com", bytes "k"⟩
            { url := bytes "http://x", imageBytes := some (.ok (bytes "img")) },
          some (formDataContentType (bytes "b")),
          some (multipartBody (bytes "b") (bytes "img"))⟩ :=
  ⟨rfl,
    (c4_post_same_query_as_get ⟨bytes "https://example.com", bytes "k"⟩ (bytes "b")
      { url := bytes "http://x", imageBytes := some (.ok (bytes "img")) }
      (bytes "img") rfl).1⟩

/-! ## Claims about the Search operation's response handling -/

/-- C3: Search decodes the body exactly when the HTTP status is 200 (its
result is then the JSON decode of the body); a 429 yields the wrapped
QuotaError, recognisable by type (`isQuota`, i.e. `errors.As`), while any
other non-200 status yields a generic string error carrying the status
text, which is not a QuotaError. -/
theorem c3_status_handling (c : Client) (boundary : List Nat) (r : SearchRequest)
    (resp : HttpResponse) (h : r.imageBytes = none) :
    (resp.status = 200 → ∀ d, resp.body = .ok d →
      (search c boundary (fun _ => .ok resp) r).1 =
        match unmarshalSearchResponse d with
        | .ok sr => .ok sr
        | .error je => .error (.strError (bytes "saucenao search: " ++ jsonErrMsg je)))
    ∧ (resp.status = 429 →
        (search c boundary (fun _ => .ok resp) r).1 =
          .error (.wrapErr (bytes "saucenao search: ") .quotaError))
    ∧ (resp.status ≠ 200 → resp.status ≠ 429 →
        (search c boundary (fun _ => .ok resp) r).1 =
          .error (.strError (bytes "saucenao search: unexpected status " ++ resp.statusText)))
    ∧ (GoErr.wrapErr (bytes "saucenao search: ") .quotaError).isQuota = true
    ∧ (∀ st : List Nat,
        (GoErr.strError (bytes "saucenao search: unexpected status " ++ st)).isQuota = false) := by
  refine ⟨?_, ?_, ?_, rfl, fun st => rfl⟩
  · intro h200 d hd
    simp only [search, requestForSearch, h]
    rw [h200, hd]
    simp only [if_pos rfl]
    cases hu : unmarshalSearchResponse d <;> simp [hu]
  · intro h429
    simp only [search, requestForSearch, h]
    rw [h429]
    simp
  · intro h200 h429
    simp only [search, requestForSearch, h]
    rw [if_neg h200, if_neg h429]

/-- Witness for C3 at a concrete 429 response and a concrete 500
response. -/
theorem c3_status_handling_witness :
    (search ⟨bytes "S", bytes "K"⟩ (bytes "B")
        (fun _ => .ok ⟨429, bytes "429 Too Many Requests", .ok []⟩)
        { numRes := 16 }).1 =
      .error (.wrapErr (bytes "saucenao search: ") .quotaError)
    ∧ (search ⟨bytes "S", bytes "K"⟩ (bytes "B")
        (fun _ => .ok ⟨500, bytes "500 Internal Server Error", .ok []⟩)
        { numRes := 16 }).1 =
      .error (.strError
        (bytes "saucenao search: unexpected status " ++ bytes "500 Internal Server Error"))
    ∧ (GoErr.wrapErr (bytes "saucenao search: ") .quotaError).isQuota = true
    ∧ (GoErr.strError
        (bytes "saucenao search: unexpected status " ++ bytes "500 Internal Server Error")).isQuota
        = false :=
  ⟨(c3_status_handling ⟨bytes "S", bytes "K"⟩ (bytes "B") { numRes := 16 }
      ⟨429, bytes "429 Too Many Requests", .ok []⟩ rfl).2.1 rfl,
    (c3_status_handling ⟨bytes "S", bytes "K"⟩ (bytes "B") { numRes := 16 }
      ⟨500, bytes "500 Internal Server Error", .ok []⟩ rfl).2.2.1 (by decide) (by decide),
    (c3_status_handling ⟨bytes "S", bytes "K"⟩ (bytes "B") { numRes := 16 }
      ⟨429, bytes "429 Too Many Requests", .ok []⟩ rfl).2.2.2.1,
    (c3_status_handling ⟨bytes "S", bytes "K"⟩ (bytes "B") { numRes := 16 }
      ⟨429, bytes "429 Too Many Requests", .ok []⟩ rfl).2.2.2.2
      (bytes "500 Internal Server Error")⟩

theorem ne_of_getElem? {l₁ l₂ : List Nat} (i : Nat) (h : l₁[i]? ≠ l₂[i]?) : l₁ ≠ l₂ :=
  fun he => h (by rw [he])

theorem getElem?_zero_append {a : List Nat} (b : List Nat) {x : Nat}
    (h : a[0]? = some x) : (a ++ b)[0]? = some x := by
  cases a with
  | nil => simp at h
  | cons y ys => simpa using h

theorem getElem?_append_of_lt (a b : List Nat) (i : Nat) (hi : i < a.length) :
    (a ++ b)[i]? = a[i]? := by
  rw [List.getElem?_append]
  exact if_pos hi

theorem searchPrefix_at_17 (x : List Nat) :
    (bytes "saucenao search: " ++ x)[17]? = x[0]? := by
  rw [List.getElem?_append_right (by decide)]
  have h : (bytes "saucenao search: ").length = 17 := by decide
  rw [h]

/-- The first byte of every modelled JSON error message: `u` (117) for
unexpected end, `i` (105) for invalid character, `j` (106) for the
`json:`-prefixed unmarshal errors. -/
theorem jsonErrMsg_head (je : JsonErr) :
    (jsonErrMsg je)[0]? = some 117 ∨ (jsonErrMsg je)[0]? = some 105 ∨
      (jsonErrMsg je)[0]? = some 106 := by
  cases je with
  | unexpectedEnd => exact Or.inl (by decide)
  | invalidChar c ctx =>
    exact Or.inr (Or.inl
      (getElem?_zero_append _ (getElem?_zero_append _ (getElem?_zero_append _ (by decide)))))
  | typeErr m => exact Or.inr (Or.inr (getElem?_zero_append _ (by decide)))
  | stringTagErr => exact Or.inr (Or.inr (by decide))

/-- The first byte of a `*url.Error` message from `http.Client.Do`: `G`
(71) or `P` (80). -/
theorem urlErrorMsg_head (m : Method) (u inner : List Nat) :
    (urlErrorMsg m u inner)[0]? = some 71 ∨ (urlErrorMsg m u inner)[0]? = some 80 := by
  cases m with
  | get =>
    exact Or.inl
      (getElem?_zero_append _ (getElem?_zero_append _ (getElem?_zero_append _ (by decide))))
  | post =>
    exact Or.inr
      (getElem?_zero_append _ (getElem?_zero_append _ (getElem?_zero_append _ (by decide))))

/-- C5: on a 200 response, Search returns the parsed SearchResponse when
the body is valid JSON, and otherwise an error embedding the JSON error
message; that decode error, as a Go error value, is never equal to any
transport error (a `*url.Error` message), to any unexpected-status error,
or to any wrapping error (QuotaError and construction failures), so the
caller can distinguish it. -/
theorem c5_decode_error_distinct (c : Client) (boundary : List Nat) (r : SearchRequest)
    (stext : List Nat) (h : r.imageBytes = none) :
    (∀ d sr, unmarshalSearchResponse d = .ok sr →
      (search c boundary (fun _ => .ok ⟨200, stext, .ok d⟩) r).1 = .ok sr)
    ∧ (∀ d je, unmarshalSearchResponse d = .error je →
        (search c boundary (fun _ => .ok ⟨200, stext, .ok d⟩) r).1 =
          .error (.strError (bytes "saucenao search: " ++ jsonErrMsg je)))
    ∧ (∀ (je : JsonErr) (m : Method) (u inner : List Nat),
        GoErr.strError (bytes "saucenao search: " ++ jsonErrMsg je) ≠
          .strError (bytes "saucenao search: " ++ urlErrorMsg m u inner))
    ∧ (∀ (je : JsonErr) (st : List Nat),
        GoErr.strError (bytes "saucenao search: " ++ jsonErrMsg je) ≠
          .strError (bytes "saucenao search: unexpected status " ++ st))
    ∧ (∀ (je : JsonErr) (pre : List Nat) (e2 : GoErr),
        GoErr.strError (bytes "saucenao search: " ++ jsonErrMsg je) ≠ .wrapErr pre e2) := by
  refine ⟨?_, ?_, ?_, ?_, fun je pre e2 => by simp⟩
  · intro d sr hu
    simp only [search, requestForSearch, h]
    simp [hu]
  · intro d je hu
    simp only [search, requestForSearch, h]
    simp [hu]
  · intro je m u inner heq
    rw [GoErr.strError.injEq] at heq
    have h17 := congrArg (fun l => l[17]?) heq
    simp only [searchPrefix_at_17] at h17
    rcases jsonErrMsg_head je with hj | hj | hj <;>
      rcases urlErrorMsg_head m u inner with hm | hm <;>
        rw [hj, hm] at h17 <;> exact absurd h17 (by decide)
  · intro je st heq
    rw [GoErr.strError.injEq] at heq
    cases je with
    | unexpectedEnd =>
      have h28 := congrArg (fun l => l[28]?) heq
      dsimp only at h28
      rw [show (bytes "saucenao search: " ++
            jsonErrMsg JsonErr.unexpectedEnd)[28]? = some 101 from by decide,
          getElem?_append_of_lt _ _ 28 (by decide),
          show (bytes "saucenao search: unexpected status ")[28]? = some 115 from by decide]
        at h28
      exact absurd h28 (by decide)
    | invalidChar cch ctx =>
      have h17 := congrArg (fun l => l[17]?) heq
      dsimp only at h17
      have hd : (jsonErrMsg (JsonErr.invalidChar cch ctx))[0]? = some 105 :=
        getElem?_zero_append _ (getElem?_zero_append _ (getElem?_zero_append _ (by decide)))
      rw [searchPrefix_at_17, getElem?_append_of_lt _ _ 17 (by decide),
          show (bytes "saucenao search: unexpected status ")[17]? = some 117 from by decide,
          hd] at h17
      exact absurd h17 (by decide)
    | typeErr m2 =>
      have h17 := congrArg (fun l => l[17]?) heq
      dsimp only at h17
      have hd : (jsonErrMsg (JsonErr.typeErr m2))[0]? = some 106 :=
        getElem?_zero_append _ (by decide)
      rw [searchPrefix_at_17, getElem?_append_of_lt _ _ 17 (by decide),
          show (bytes "saucenao search: unexpected status ")[17]? = some 117 from by decide,
          hd] at h17
      exact absurd h17 (by decide)
    | stringTagErr =>
      have h17 := congrArg (fun l => l[17]?) heq
      dsimp only at h17
      rw [searchPrefix_at_17,
          show (jsonErrMsg JsonErr.stringTagErr)[0]? = some 106 from by decide,
          getElem?_append_of_lt _ _ 17 (by decide),
          show (bytes "saucenao search: unexpected status ")[17]? = some 117 from by decide]
        at h17
      exact absurd h17 (by decide)

/-- Witness for C5: empty body versus a valid body, at a concrete
client. -/
theorem c5_decode_error_distinct_witness :
    (search ⟨bytes "S", bytes "K"⟩ (bytes "B")
        (fun _ => .ok ⟨200, bytes "200 OK", .ok (bytes "null")⟩) { numRes := 16 }).1 =
      .ok {}
    ∧ (search ⟨bytes "S", bytes "K"⟩ (bytes "B")
        (fun _ => .ok ⟨200, bytes "200 OK", .ok []⟩) { numRes := 16 }).1 =
      .error (.strError (bytes "saucenao search: " ++ jsonErrMsg .unexpectedEnd))
    ∧ GoErr.strError (bytes "saucenao search: " ++ jsonErrMsg .unexpectedEnd) ≠
        .strError (bytes "saucenao search: " ++
          urlErrorMsg .get (bytes "S/x") (bytes "connection refused"))
    ∧ GoErr.strError (bytes "saucenao search: " ++ jsonErrMsg .unexpectedEnd) ≠
        .strError (bytes "saucenao search: unexpected status " ++ bytes "500 Internal Server Error") :=
  ⟨(c5_decode_error_distinct ⟨bytes "S", bytes "K"⟩ (bytes "B") { numRes := 16 }
      (bytes "200 OK") rfl).1 (bytes "null") {} (by decide),
    (c5_decode_error_distinct ⟨bytes "S", bytes "K"⟩ (bytes "B") { numRes := 16 }
      (bytes "200 OK") rfl).2.1 [] .unexpectedEnd (by decide),
    (c5_decode_error_distinct ⟨bytes "S", bytes "K"⟩ (bytes "B") { numRes := 16 }
      (bytes "200 OK") rfl).2.2.1 .unexpectedEnd .get (bytes "S/x") (bytes "connection refused"),
    (c5_decode_error_distinct ⟨bytes "S", bytes "K"⟩ (bytes "B") { numRes := 16 }
      (bytes "200 OK") rfl).2.2.2.1 .unexpectedEnd (bytes "500 Internal Server Error")⟩

/-! ## Claims about per-result payload decoding -/

theorem decodeFields_unknown {α : Type} (tbl : List (List Nat × Setter α)) (acc : α)
    (fs : List (List Nat × List Nat × JVal))
    (h : ∀ kv ∈ fs, findSetter tbl kv.1 = none) :
    decodeFields tbl acc fs = .ok acc := by
  induction fs generalizing acc with
  | nil => rfl
  | cons kv rest ih =>
    obtain ⟨k, raw, v⟩ := kv
    have hk : findSetter tbl k = none := h ⟨k, raw, v⟩ (by simp)
    rw [decodeFields, hk]
    exact ih acc (fun kv2 h2 => h kv2 (List.mem_cons_of_mem _ h2))

theorem except_map_ok {α β ε : Type} (f : α → β) (a : α) :
    (f <$> (Except.ok a : Except ε α)) = .ok (f a) := rfl

theorem decStrElems_map (urls : List (List Nat)) :
    decStrElems (urls.map (fun u => ([], JVal.str u))) = .ok urls := by
  induction urls with
  | nil => rfl
  | cons u us ih => simp [decStrElems, ih, Except.map]

/-- C7: decoding a result payload as DanbooruData ignores unknown sibling
fields (an object of only unknown keys decodes to the all-defaults
value), reproduces each named field from any object carrying the six
named members followed by arbitrary unknown siblings, and rejects any
payload that is not valid JSON for the schema with a wrapped decode error
carrying no data — e.g. the valid-JSON non-object payload `5`. -/
theorem c7_asDanbooru_fields (n : Int) (src chars mat cre : List Nat)
    (urls : List (List Nat)) (fs : List (List Nat × List Nat × JVal))
    (h1 : -(2 ^ 63) ≤ n) (h2 : n < 2 ^ 63)
    (hal : ∀ kv ∈ fs, findSetter danbooruSetters kv.1 = none) :
    decodeDanbooruVal (.obj fs) = .ok {}
    ∧ decodeDanbooruVal (.obj
        ([(bytes "source", [], .str src),
          (bytes "characters", [], .str chars),
          (bytes "material", [], .str mat),
          (bytes "creator", [], .str cre),
          (bytes "danbooru_id", [], .num (n : ℚ)),
          (bytes "ext_urls", [], .arr (urls.map (fun u => ([], .str u))))] ++ fs)) =
        .ok ⟨urls, n, src, chars, mat, cre⟩
    ∧ (∀ bs je, jsonUnmarshalTop bs = .error je →
        asDanbooru bs =
          .error (.wrapErr (bytes "search result as danbooru: ")
            (.strError (jsonErrMsg je))))
    ∧ asDanbooru (bytes "5") =
        .error (.wrapErr (bytes "search result as danbooru: ")
          (.strError (jsonErrMsg
            (.typeErr (bytes "value into Go value of type saucenao.DanbooruData"))))) := by
  have e1 : findSetter danbooruSetters (bytes "source") = some setSource := rfl
  have e2 : findSetter danbooruSetters (bytes "characters") = some setCharacters := rfl
  have e3 : findSetter danbooruSetters (bytes "material") = some setMaterial := rfl
  have e4 : findSetter danbooruSetters (bytes "creator") = some setCreator := rfl
  have e5 : findSetter danbooruSetters (bytes "danbooru_id") = some setDanbooruID := rfl
  have e6 : findSetter danbooruSetters (bytes "ext_urls") = some setExtURLs := rfl
  refine ⟨decodeFields_unknown _ _ _ hal, ?_, ?_, by decide⟩
  · simp only [decodeDanbooruVal, List.cons_append, List.nil_append, decodeFields,
      e1, e2, e3, e4, e5, e6, setSource, setCharacters, setMaterial, setCreator,
      setDanbooruID, setExtURLs, decStrField, decIntField, decStrListField,
      decStrElems_map, Except.map, Rat.den_intCast, Rat.num_intCast]
    rw [if_pos ⟨trivial, h1, h2⟩]
    simp only [except_map_ok, List.nil_append]
    exact decodeFields_unknown _ _ _ hal
  · intro bs je hje
    simp [asDanbooru, unmarshalDanbooru, hje]

/-- Witness for C7 at the test payload's values plus an unknown sibling
field. -/
theorem c7_asDanbooru_fields_witness :
    decodeDanbooruVal (.obj
        ([(bytes "source", [], .str (bytes "http://img10.pixiv.net/img/howard19862002/12897460.jpg")),
          (bytes "characters", [], .str (bytes "elis (touhou), kikuri (touhou)")),
          (bytes "material", [], .str (bytes "touhou")),
          (bytes "creator", [], .str (bytes "nichimatsu seri")),
          (bytes "danbooru_id", [], .num ((736634 : Int) : ℚ)),
          (bytes "ext_urls", [],
            .arr ([bytes "https://danbooru.donmai.us/post/show/736634"].map
              (fun u => ([], .str u))))] ++ [(bytes "bogus", [], .null)])) =
      .ok ⟨[bytes "https://danbooru.donmai.us/post/show/736634"], 736634,
        bytes "http://img10.pixiv.net/img/howard19862002/12897460.jpg",
        bytes "elis (touhou), kikuri (touhou)", bytes "touhou",
        bytes "nichimatsu seri"⟩
    ∧ asDanbooru [] =
        .error (.wrapErr (bytes "search result as danbooru: ")
          (.strError (jsonErrMsg .unexpectedEnd))) := by
  have h := c7_asDanbooru_fields 736634
    (bytes "http://img10.pixiv.net/img/howard19862002/12897460.jpg")
    (bytes "elis (touhou), kikuri (touhou)") (bytes "touhou") (bytes "nichimatsu seri")
    [bytes "https://danbooru.donmai.us/post/show/736634"]
    [(bytes "bogus", [], .null)] (by decide) (by decide)
    (by
      intro kv hkv
      rw [List.mem_singleton] at hkv
      subst hkv
      rfl)
  exact ⟨h.2.1, h.2.2.1 [] .unexpectedEnd rfl⟩

end Saucenao
